import Mathlib

/-!
Shallow embedding of the libdragon-bindings crate (src/lib.rs, src/bindings.rs).

The crate is an FFI binding layer: each public wrapper function calls one
declared native function and translates its integer return code into a local
result type, panicking on codes outside the range handled by its match.
We model each wrapper as a pure Lean function of its typed arguments and of
the integer value the native function returns; the panic branches are modelled
by the dedicated constructor of the Outcome type, and the sequence of native
calls a wrapper performs is recorded explicitly so that call-count and
pass-through properties can be stated.
-/

/-- Result of running a piece of wrapper code: either a normal value or a
panic (the wrapper's panic! / expect branches). -/
inductive Outcome (α : Type) where
  | ok (a : α) : Outcome α
  | panic : Outcome α
  deriving DecidableEq, Repr

/-- A record of one call made to a declared native function, carrying the
arguments the wrapper passed through to it. Pointers to buffers are recorded
as the buffer contents; C strings as the byte list handed to the native side. -/
inductive NativeCall where
  | audio_write (buffer : List Int) : NativeCall
  | dfs_chdir (path : List Nat) : NativeCall
  | dfs_open (path : List Nat) : NativeCall
  | dfs_dir_findfirst (path : List Nat) : NativeCall
  | graphics_draw_text (disp : Nat) (x y : Int) (msg : List Nat) : NativeCall
  | dma_read (ramAddress : Nat) (piAddress : Nat) (length : Nat) : NativeCall
  deriving DecidableEq, Repr

/-- One execution of a wrapper body: the native calls it performed, in order,
and its outcome. -/
structure Run (α : Type) where
  calls : List NativeCall
  result : Outcome α
  deriving DecidableEq, Repr

/-- Models cstr_core::CString::new as used by the wrappers (its documented
semantics, which the crate relies on): fails exactly when the byte string has
an interior NUL, otherwise appends the terminating NUL. The wrappers call
.expect on it, so the failure case is a panic before any native call. -/
def cstring_new (s : List Nat) : Option (List Nat) :=
  if s.contains 0 then none else some (s ++ [0])

namespace Controller

/-- src/lib.rs lines 313-319: #[repr(i32)] enum MemPakResult. -/
inductive MemPakResult where
  | Success
  | OutOfRange
  | NoMemPak
  | InvalidMemPakData
  deriving DecidableEq, Repr

/-- src/lib.rs lines 301-311: #[repr(i32)] enum DPadDirection (0..7). -/
inductive DPadDirection where
  | R
  | UR
  | U
  | UL
  | L
  | DL
  | D
  | DR
  deriving DecidableEq, Repr

/-- src/lib.rs lines 429-439: the match in Controller::read_mempak_address on
the native read_mempak_address return code. -/
def read_mempak_address_map (v : Int) : Outcome MemPakResult :=
  if v = 0 then .ok .Success
  else if v = -1 then .ok .OutOfRange
  else if v = -2 then .ok .NoMemPak
  else if v = -3 then .ok .InvalidMemPakData
  else .panic

/-- src/lib.rs lines 412-426: the match in Controller::get_dpad_direction on
the native get_dpad_direction return code. -/
def get_dpad_direction_map (v : Int) : Outcome DPadDirection :=
  if v = 0 then .ok .R
  else if v = 1 then .ok .UR
  else if v = 2 then .ok .U
  else if v = 3 then .ok .UL
  else if v = 4 then .ok .L
  else if v = 5 then .ok .DL
  else if v = 6 then .ok .D
  else if v = 7 then .ok .DR
  else .panic

end Controller

namespace MemoryPak

/-- src/lib.rs lines 663-665: MemoryPak::get_free_space returns the native
get_mempak_free_space return value unchanged. -/
def get_free_space_map (v : Int) : Int := v

end MemoryPak

namespace DragonFS

/-- src/lib.rs lines 1141-1150: #[repr(i32)] enum DFSResult. -/
inductive DFSResult where
  | Success
  | BadInput
  | NoFile
  | BadFS
  | NoMem
  | BadHandle
  deriving DecidableEq, Repr

/-- src/lib.rs lines 1169-1173: union OpenResult, which carries either a
DFSResult error or a u32 file handle. A union read is only meaningful for the
member that was written, so we model it as a sum. -/
inductive OpenResult where
  | error (e : DFSResult) : OpenResult
  | handle (h : Nat) : OpenResult
  deriving DecidableEq, Repr

/-- src/lib.rs lines 1181-1185: union TellResult (DFSResult error or c_int offset). -/
inductive TellResult where
  | error (e : DFSResult) : TellResult
  | offset (o : Int) : TellResult
  deriving DecidableEq, Repr

/-- src/lib.rs lines 1187-1191: union SizeResult (DFSResult error or c_int size). -/
inductive SizeResult where
  | error (e : DFSResult) : SizeResult
  | size (s : Int) : SizeResult
  deriving DecidableEq, Repr

/-- src/lib.rs lines 1155-1159: union Flag_Error (DFSResult error or c_int flags). -/
inductive Flag_Error where
  | error (e : DFSResult) : Flag_Error
  | flags (f : Int) : Flag_Error
  deriving DecidableEq, Repr

/-- src/lib.rs lines 1232-1241 (and identically init/seek/close): the match
translating a native 0 / -1..-5 status code into DFSResult, panicking on any
other value. -/
def dfs_status_map (v : Int) : Outcome DFSResult :=
  if v = 0 then .ok .Success
  else if v = -1 then .ok .BadInput
  else if v = -2 then .ok .NoFile
  else if v = -3 then .ok .BadFS
  else if v = -4 then .ok .NoMem
  else if v = -5 then .ok .BadHandle
  else .panic

/-- src/lib.rs lines 1295-1303: the match in DragonFS::open. Arms are tried in
source order: -1..-5 become errors, c_int::MIN..=-6 panics, and the remaining
values (all non-negative, since the native return is a c_int) are cast to u32
and carried as the handle; for non-negative v the cast equals v.toNat. -/
def dfs_open_map (v : Int) : Outcome OpenResult :=
  if v = -1 then .ok (.error .BadInput)
  else if v = -2 then .ok (.error .NoFile)
  else if v = -3 then .ok (.error .BadFS)
  else if v = -4 then .ok (.error .NoMem)
  else if v = -5 then .ok (.error .BadHandle)
  else if v ≤ -6 then .panic
  else .ok (.handle v.toNat)

/-- src/lib.rs lines 1340-1347: the match in DragonFS::tell. -/
def dfs_tell_map (v : Int) : Outcome TellResult :=
  if v = -1 then .ok (.error .BadInput)
  else if v = -2 then .ok (.error .NoFile)
  else if v = -3 then .ok (.error .BadFS)
  else if v = -4 then .ok (.error .NoMem)
  else if v = -5 then .ok (.error .BadHandle)
  else if v ≤ -6 then .panic
  else .ok (.offset v)

/-- src/lib.rs lines 1386-1394: the match in DragonFS::size. -/
def dfs_size_map (v : Int) : Outcome SizeResult :=
  if v = -1 then .ok (.error .BadInput)
  else if v = -2 then .ok (.error .NoFile)
  else if v = -3 then .ok (.error .BadFS)
  else if v = -4 then .ok (.error .NoMem)
  else if v = -5 then .ok (.error .BadHandle)
  else if v ≤ -6 then .panic
  else .ok (.size v)

/-- src/lib.rs lines 1256-1263: the match in DragonFS::dir_find_first /
dir_find_next on the native return (0..=3 are flags, -1..-5 errors, else panic). -/
def dfs_flags_map (v : Int) : Outcome Flag_Error :=
  if 0 ≤ v ∧ v ≤ 3 then .ok (.flags v)
  else if v = -1 then .ok (.error .BadInput)
  else if v = -2 then .ok (.error .NoFile)
  else if v = -3 then .ok (.error .BadFS)
  else if v = -4 then .ok (.error .NoMem)
  else if v = -5 then .ok (.error .BadHandle)
  else .panic

/-- Spec-side restatement of the claimed DragonFS::open mapping, written from
the claim's words: v in -1..=-5 gives the corresponding error variant, v >= 0
gives the handle, v <= -6 panics. Compared against dfs_open_map. -/
def dfs_open_claimed (v : Int) : Outcome OpenResult :=
  if 0 ≤ v then .ok (.handle v.toNat)
  else if v = -1 then .ok (.error .BadInput)
  else if v = -2 then .ok (.error .NoFile)
  else if v = -3 then .ok (.error .BadFS)
  else if v = -4 then .ok (.error .NoMem)
  else if v = -5 then .ok (.error .BadHandle)
  else .panic

/-- Spec-side restatement of the claimed DragonFS::tell mapping. -/
def dfs_tell_claimed (v : Int) : Outcome TellResult :=
  if 0 ≤ v then .ok (.offset v)
  else if v = -1 then .ok (.error .BadInput)
  else if v = -2 then .ok (.error .NoFile)
  else if v = -3 then .ok (.error .BadFS)
  else if v = -4 then .ok (.error .NoMem)
  else if v = -5 then .ok (.error .BadHandle)
  else .panic

/-- Spec-side restatement of the claimed DragonFS::size mapping. -/
def dfs_size_claimed (v : Int) : Outcome SizeResult :=
  if 0 ≤ v then .ok (.size v)
  else if v = -1 then .ok (.error .BadInput)
  else if v = -2 then .ok (.error .NoFile)
  else if v = -3 then .ok (.error .BadFS)
  else if v = -4 then .ok (.error .NoMem)
  else if v = -5 then .ok (.error .BadHandle)
  else .panic

/-- src/lib.rs lines 1229-1243: DragonFS::chdir. Builds a C string from the
path (panicking via expect on interior NUL), then performs the single native
dfs_chdir call and translates its status code. -/
def chdir_run (path : List Nat) (nativeRet : Int) : Run DFSResult :=
  match cstring_new path with
  | none => ⟨[], .panic⟩
  | some cs => ⟨[.dfs_chdir cs], dfs_status_map nativeRet⟩

/-- src/lib.rs lines 1291-1305: DragonFS::open. C string conversion (expect),
then one native dfs_open call translated by the open match. -/
def open_run (path : List Nat) (nativeRet : Int) : Run OpenResult :=
  match cstring_new path with
  | none => ⟨[], .panic⟩
  | some cs => ⟨[.dfs_open cs], dfs_open_map nativeRet⟩

/-- src/lib.rs lines 1252-1266: DragonFS::dir_find_first. C string conversion
(expect), then one native dfs_dir_findfirst call translated by the flags match. -/
def dir_find_first_run (path : List Nat) (nativeRet : Int) : Run Flag_Error :=
  match cstring_new path with
  | none => ⟨[], .panic⟩
  | some cs => ⟨[.dfs_dir_findfirst cs], dfs_flags_map nativeRet⟩

end DragonFS

namespace Audio

/-- src/lib.rs lines 79-81: Audio::write_buffer performs exactly the single
native audio_write call with the buffer pointer and returns unit. -/
def write_buffer_run (buffer : List Int) : Run Unit :=
  ⟨[.audio_write buffer], .ok ()⟩

end Audio

namespace DMA

/-- src/lib.rs lines 1081-1083: DMA::read performs exactly the single native
dma_read call, passing its three arguments through, and returns unit. -/
def read_run (ramAddress : Nat) (piAddress : Nat) (length : Nat) : Run Unit :=
  ⟨[.dma_read ramAddress piAddress length], .ok ()⟩

end DMA

namespace GraphicsEngine

/-- src/lib.rs lines 1521-1527: GraphicsEngine::draw_text. C string conversion
of msg (expect, panicking on interior NUL), then the single native
graphics_draw_text call; returns unit. -/
def draw_text_run (disp : Nat) (x y : Int) (msg : List Nat) : Run Unit :=
  match cstring_new msg with
  | none => ⟨[], .panic⟩
  | some cs => ⟨[.graphics_draw_text disp x y cs], .ok ()⟩

end GraphicsEngine

/-- The memory ordering arguments of core::sync::atomic::compiler_fence as
used in src/bindings.rs lines 107-112. -/
inductive FenceKind where
  | release
  | acquire
  | acqRel
  deriving DecidableEq, Repr

/-- A machine state: the contents of every memory location and register,
indexed abstractly by address. -/
structure MachineState where
  mem : Nat → Nat
  regs : Nat → Nat

/-- Run-time effect of core::sync::atomic::compiler_fence: a compiler fence
only restricts compile-time instruction reordering and emits no instruction,
so its effect on any machine state is the identity. -/
def compiler_fence (s : MachineState) (_ordering : FenceKind) : MachineState := s

namespace N64System

/-- src/bindings.rs lines 107-112: the body of MEMORY_BARRIER is exactly three
compiler_fence calls (Release, Acquire, AcqRel), in this order, and nothing else. -/
def MEMORY_BARRIER_fences : List FenceKind := [.release, .acquire, .acqRel]

/-- src/lib.rs lines 1796-1798 and src/bindings.rs lines 107-112: executing
N64System::MEMORY_BARRIER from machine state s applies the three compiler
fences in order and returns unit. -/
def MEMORY_BARRIER_run (s : MachineState) : MachineState × Unit :=
  (MEMORY_BARRIER_fences.foldl compiler_fence s, ())

/-- src/bindings.rs line 100: UncachedAddr(_addr) = _addr | 0x20000000
(c_ulong is 32 bits on the N64 target). -/
def UncachedAddr (addr : Nat) : Nat := addr ||| 0x20000000

/-- src/bindings.rs line 105: CachedAddr(_addr) = _addr & !0x20000000; on the
32-bit c_ulong, !0x20000000 is the constant 0xDFFFFFFF. -/
def CachedAddr (addr : Nat) : Nat := addr &&& 0xDFFFFFFF

/-- src/lib.rs lines 1759-1762: N64System::get_uncached_address forwards to
bindings::UncachedAddr (the pointer is modelled by its address value). -/
def get_uncached_address (addr : Nat) : Nat := UncachedAddr addr

/-- src/lib.rs lines 1789-1792: N64System::get_cached_address forwards to
bindings::CachedAddr. -/
def get_cached_address (addr : Nat) : Nat := CachedAddr addr

end N64System

/-- The crate-level mutable state of the binding layer: one field per static
mut item declared in src. The crate declares none (src/lib.rs, src/bindings.rs
and src/main.rs contain no static items), so the state space has exactly one
value. -/
inductive CrateGlobals where
  | mk
  deriving DecidableEq, Repr

namespace GraphicsEngine

/-- src/lib.rs lines 1450-1452: GraphicsEngine::make_color returns the native
graphics_make_color return value (a u32) unchanged; the wrapper reads and
writes no crate state. Modelled over the crate global state to state that the
run leaves it untouched and ignores it. -/
def make_color_run (s : CrateGlobals) (_r _g _b _a : Int) (nativeRet : Nat) :
    Nat × CrateGlobals :=
  (nativeRet, s)

end GraphicsEngine

/-- Two's-complement wrap of an integer into the i64 range, modelling Rust
release-mode overflow semantics for c_longlong arithmetic. -/
def wrapI64 (x : Int) : Int := (x + 2 ^ 63) % 2 ^ 64 - 2 ^ 63

/-- Two's-complement wrap of an integer into the i32 range, modelling the
Rust cast between c_longlong and c_int. -/
def wrapI32 (x : Int) : Int := (x + 2 ^ 31) % 2 ^ 32 - 2 ^ 31

namespace Timer

/-- src/bindings.rs line 128 (forwarded by src/lib.rs lines 2422-2424):
TIMER_MICROS(tk) = (tk * (1000 / 46875 as c_longlong)) as c_int. The inner
division is the truncating i64 division 1000 / 46875; the product is i64
arithmetic and the result is cast to c_int. -/
def TIMER_MICROS (tk : Int) : Int :=
  wrapI32 (wrapI64 (tk * Int.tdiv 1000 46875))

/-- src/bindings.rs line 130 (forwarded by src/lib.rs lines 2434-2436):
TIMER_MICROS_LL(tk) = tk * 1000 / 46875 in i64 arithmetic: the product wraps
on overflow and the division truncates toward zero. -/
def TIMER_MICROS_LL (tk : Int) : Int :=
  Int.tdiv (wrapI64 (tk * 1000)) 46875

end Timer

/-- C1: the claim says every status-code wrapper panics only on values outside
the documented range. Controller::get_dpad_direction's own documentation says
the native call "Returns -1 when not pressed", yet the wrapper's match maps
only 0..7 and panics on the documented value -1 (while read_mempak_address
does map its whole documented range 0, -1, -2, -3). This theorem evaluates the
wrapper's translation at the failing input -1. -/
theorem get_dpad_direction_panics_on_documented_minus_one :
    Controller.get_dpad_direction_map (-1) = Outcome.panic ∧
    Controller.read_mempak_address_map 0 = Outcome.ok Controller.MemPakResult.Success ∧
    Controller.read_mempak_address_map (-1) = Outcome.ok Controller.MemPakResult.OutOfRange ∧
    Controller.read_mempak_address_map (-2) = Outcome.ok Controller.MemPakResult.NoMemPak ∧
    Controller.read_mempak_address_map (-3) = Outcome.ok Controller.MemPakResult.InvalidMemPakData ∧
    Controller.read_mempak_address_map (-4) = Outcome.panic ∧
    MemoryPak.get_free_space_map (-2) = -2 := by
  decide

/-- C2 counterexample: DragonFS::chdir called on a path with an interior NUL
byte (here bytes [97, 0, 98]) performs zero calls to the native
dfs_chdir — not exactly one as the claim states for every argument tuple — and
panics instead of returning a value determined by the native return value. -/
theorem chdir_interior_nul_skips_native_call :
    (DragonFS.chdir_run [97, 0, 98] 0).calls.length ≠ 1 ∧
    (DragonFS.chdir_run [97, 0, 98] 0).result = Outcome.panic := by
  decide

/-- C2 (amended): every wrapper performs exactly one call to its declared
native function, passes its typed arguments through unchanged, performs no
retry or recovery, and returns a value determined solely by the native return
value — except that a wrapper taking a string panics before the native call
(performing zero native calls) when the string has an interior NUL byte.
Stated for the cited wrappers Audio::write_buffer and DragonFS::chdir. -/
theorem wrappers_single_native_call_passthrough :
    (∀ buffer : List Int,
      Audio.write_buffer_run buffer = ⟨[.audio_write buffer], .ok ()⟩) ∧
    (∀ (path : List Nat) (nativeRet : Int),
      DragonFS.chdir_run path nativeRet =
        if path.contains 0 then ⟨[], .panic⟩
        else ⟨[.dfs_chdir (path ++ [0])], DragonFS.dfs_status_map nativeRet⟩) := by
  refine ⟨fun _ => rfl, fun path nativeRet => ?_⟩
  by_cases h : (0 : Nat) ∈ path <;> simp [DragonFS.chdir_run, cstring_new, h]

/-- C5: the wrapper bodies of Audio::write_buffer and DMA::read contain no
loop, recursion or waiting logic: each performs its single native call and, if
that call returns, the wrapper returns immediately. -/
theorem wrappers_return_after_single_native_call :
    (∀ buffer : List Int,
      (Audio.write_buffer_run buffer).calls.length = 1 ∧
      (Audio.write_buffer_run buffer).result = Outcome.ok ()) ∧
    (∀ (ramAddress piAddress length : Nat),
      (DMA.read_run ramAddress piAddress length).calls.length = 1 ∧
      (DMA.read_run ramAddress piAddress length).result = Outcome.ok ()) :=
  ⟨fun _ => ⟨rfl, rfl⟩, fun _ _ _ => ⟨rfl, rfl⟩⟩

/-- C6: N64System::MEMORY_BARRIER consists only of the three compiler fences
of src/bindings.rs lines 107-112; executing it from any machine state s leaves
the state unchanged (every memory location and register of s) and returns unit. -/
theorem memory_barrier_preserves_state :
    ∀ s : MachineState, N64System.MEMORY_BARRIER_run s = (s, ()) :=
  fun _ => rfl

/-- C7: the binding layer keeps no mutable state of its own: the crate-global
state space (one field per declared static mut item — there are none) has
exactly one value, and two runs of GraphicsEngine::make_color from any two
prior global states with equal arguments and equal native return values
produce equal results and leave the global state unchanged. -/
theorem binding_layer_stateless_and_deterministic :
    (∀ s t : CrateGlobals, s = t) ∧
    ∀ (s t : CrateGlobals) (r g b a : Int) (nativeRet : Nat),
      (GraphicsEngine.make_color_run s r g b a nativeRet).1 =
        (GraphicsEngine.make_color_run t r g b a nativeRet).1 ∧
      (GraphicsEngine.make_color_run s r g b a nativeRet).2 = s :=
  ⟨fun s t => by cases s; cases t; rfl, fun _ _ _ _ _ _ _ => ⟨rfl, rfl⟩⟩

/-- C3: DragonFS::open translates the native dfs_open return v as claimed:
v in -1..=-5 becomes the corresponding DFSResult error (BadInput, NoFile,
BadFS, NoMem, BadHandle), v >= 0 is carried as the file handle, and v <= -6
panics; and the analogous mapping holds for DragonFS::tell (offset) and
DragonFS::size (size). Stated as equality between the source-translated
matches and the claim-side mappings. -/
theorem dfs_open_tell_size_code_mapping :
    ∀ v : Int,
      DragonFS.dfs_open_map v = DragonFS.dfs_open_claimed v ∧
      DragonFS.dfs_tell_map v = DragonFS.dfs_tell_claimed v ∧
      DragonFS.dfs_size_map v = DragonFS.dfs_size_claimed v := by
  intro v
  refine ⟨?_, ?_, ?_⟩ <;>
    simp only [DragonFS.dfs_open_map, DragonFS.dfs_open_claimed,
      DragonFS.dfs_tell_map, DragonFS.dfs_tell_claimed,
      DragonFS.dfs_size_map, DragonFS.dfs_size_claimed] <;>
    split_ifs <;> first | rfl | omega

/-- C9: each wrapper that converts a string argument (DragonFS::open,
DragonFS::chdir, DragonFS::dir_find_first, GraphicsEngine::draw_text) panics
via CString::new(...).expect before calling the native function whenever the
string has an interior NUL byte (performing no native call), and otherwise
does not panic before the native call: it hands the NUL-terminated bytes to
its single native call and translates the native return. -/
theorem cstring_wrappers_interior_nul_panic :
    ∀ (path : List Nat) (nativeRet : Int) (disp : Nat) (x y : Int),
      (DragonFS.open_run path nativeRet =
        if path.contains 0 then ⟨[], .panic⟩
        else ⟨[.dfs_open (path ++ [0])], DragonFS.dfs_open_map nativeRet⟩) ∧
      (DragonFS.chdir_run path nativeRet =
        if path.contains 0 then ⟨[], .panic⟩
        else ⟨[.dfs_chdir (path ++ [0])], DragonFS.dfs_status_map nativeRet⟩) ∧
      (DragonFS.dir_find_first_run path nativeRet =
        if path.contains 0 then ⟨[], .panic⟩
        else ⟨[.dfs_dir_findfirst (path ++ [0])], DragonFS.dfs_flags_map nativeRet⟩) ∧
      (GraphicsEngine.draw_text_run disp x y path =
        if path.contains 0 then ⟨[], .panic⟩
        else ⟨[.graphics_draw_text disp x y (path ++ [0])], .ok ()⟩) := by
  intro path nativeRet disp x y
  by_cases h : (0 : Nat) ∈ path <;>
    refine ⟨?_, ?_, ?_, ?_⟩ <;>
    simp [DragonFS.open_run, DragonFS.chdir_run, DragonFS.dir_find_first_run,
      GraphicsEngine.draw_text_run, cstring_new, h]

/-- C8 counterexample: the claim says TIMER_MICROS_LL(tk) differs from
TIMER_MICROS(tk) for every tk >= 47, but at the valid i64 tick count
tk = 18446744073709552 the i64 product tk * 1000 wraps around to 384, so
TIMER_MICROS_LL returns 384 / 46875 = 0, equal to TIMER_MICROS's 0. -/
theorem timer_micros_ll_equal_at_wraparound :
    (47 : Int) ≤ 18446744073709552 ∧
    (18446744073709552 : Int) < 2 ^ 63 ∧
    Timer.TIMER_MICROS_LL 18446744073709552 =
      Timer.TIMER_MICROS 18446744073709552 := by
  refine ⟨by decide, by decide, ?_⟩
  decide

/-- C8 (amended): TIMER_MICROS(tk) returns 0 for every tick count tk, because
the conversion factor is the truncating integer division 1000 / 46875 = 0; and
TIMER_MICROS_LL(tk) (which computes tk * 1000 / 46875 in i64 arithmetic)
differs from TIMER_MICROS(tk) for every tk >= 47 whose product tk * 1000 does
not overflow the i64 range. -/
theorem timer_micros_zero_and_ll_differs :
    ∀ tk : Int,
      Timer.TIMER_MICROS tk = 0 ∧
      (47 ≤ tk → tk * 1000 < 2 ^ 63 →
        Timer.TIMER_MICROS_LL tk ≠ Timer.TIMER_MICROS tk) := by
  intro tk
  have hz : Timer.TIMER_MICROS tk = 0 := by
    unfold Timer.TIMER_MICROS
    rw [show Int.tdiv 1000 46875 = 0 from by decide, mul_zero]
    decide
  refine ⟨hz, fun h47 hlt => ?_⟩
  have hnn : (0 : Int) ≤ tk * 1000 := by omega
  have hwrap : wrapI64 (tk * 1000) = tk * 1000 := by
    unfold wrapI64
    rw [Int.emod_eq_of_lt (by omega) (by omega)]
    omega
  have hdiv : Timer.TIMER_MICROS_LL tk = tk * 1000 / 46875 := by
    unfold Timer.TIMER_MICROS_LL
    rw [hwrap, Int.tdiv_eq_ediv hnn (by norm_num)]
  have hone : (1 : Int) ≤ tk * 1000 / 46875 := by
    rw [Int.le_ediv_iff_mul_le (by norm_num)]
    omega
  rw [hdiv, hz]
  omega

/-- C8 witness: the amended difference at the concrete tick count tk = 47. -/
theorem timer_micros_zero_and_ll_differs_witness :
    ((47 : Int) ≤ 47 ∧ (47 : Int) * 1000 < 2 ^ 63) ∧
    (Timer.TIMER_MICROS 47 = 0 ∧
      Timer.TIMER_MICROS_LL 47 ≠ Timer.TIMER_MICROS 47) :=
  ⟨⟨by decide, by decide⟩,
    ⟨(timer_micros_zero_and_ll_differs 47).1,
      (timer_micros_zero_and_ll_differs 47).2 (by decide) (by decide)⟩⟩

lemma testBit_uncached_mask (i : Nat) :
    Nat.testBit 0x20000000 i = decide (29 = i) := by
  rw [show (0x20000000 : Nat) = 2 ^ 29 by norm_num, Nat.testBit_two_pow]

lemma testBit_cached_mask (i : Nat) :
    Nat.testBit 0xDFFFFFFF i = (decide (i < 32) && !decide (29 = i)) := by
  rcases Nat.lt_or_ge i 32 with h | h
  · interval_cases i <;> decide
  · have h1 : Nat.testBit 0xDFFFFFFF i = false :=
      Nat.testBit_lt_two_pow (lt_of_lt_of_le (by norm_num)
        (Nat.pow_le_pow_right (by norm_num) h))
    rw [h1]
    simp [Nat.not_lt.mpr h]

lemma cached_of_uncached (a : Nat) :
    N64System.CachedAddr (N64System.UncachedAddr a) = N64System.CachedAddr a := by
  apply Nat.eq_of_testBit_eq
  intro i
  simp only [N64System.CachedAddr, N64System.UncachedAddr, Nat.testBit_land,
    Nat.testBit_lor, testBit_uncached_mask, testBit_cached_mask]
  by_cases h29 : 29 = i <;> simp [h29]

/-- C10: for every 32-bit address a, N64System::get_uncached_address(a)
returns a | 0x20000000 and N64System::get_cached_address(a) returns
a & !0x20000000 (i.e. a & 0xDFFFFFFF); both are idempotent on the address
bits, and get_cached_address(get_uncached_address(a)) = a exactly when bit
0x20000000 of a is clear. -/
theorem uncached_cached_address_algebra (a : Nat) (ha : a < 2 ^ 32) :
    N64System.get_uncached_address a = (a ||| 0x20000000) ∧
    N64System.get_cached_address a = (a &&& 0xDFFFFFFF) ∧
    N64System.get_uncached_address (N64System.get_uncached_address a) =
      N64System.get_uncached_address a ∧
    N64System.get_cached_address (N64System.get_cached_address a) =
      N64System.get_cached_address a ∧
    (N64System.get_cached_address (N64System.get_uncached_address a) = a ↔
      a &&& 0x20000000 = 0) := by
  refine ⟨rfl, rfl, ?_, ?_, ?_⟩
  · show N64System.UncachedAddr (N64System.UncachedAddr a) = N64System.UncachedAddr a
    unfold N64System.UncachedAddr
    rw [Nat.lor_assoc, Nat.or_self]
  · show N64System.CachedAddr (N64System.CachedAddr a) = N64System.CachedAddr a
    unfold N64System.CachedAddr
    rw [Nat.land_assoc, Nat.and_self]
  · show N64System.CachedAddr (N64System.UncachedAddr a) = a ↔ a &&& 0x20000000 = 0
    rw [cached_of_uncached]
    constructor
    · intro h
      apply Nat.eq_of_testBit_eq
      intro i
      have hb : a.testBit 29 = false := by
        have h2 := congrArg (fun n => n.testBit 29) h
        simpa [N64System.CachedAddr, Nat.testBit_land, testBit_cached_mask]
          using h2.symm
      simp only [Nat.testBit_land, testBit_uncached_mask, Nat.zero_testBit]
      by_cases h29 : 29 = i
      · subst h29; simp [hb]
      · simp [h29]
    · intro h
      have hb : a.testBit 29 = false := by
        have h2 := congrArg (fun n => n.testBit 29) h
        simpa [Nat.testBit_land, testBit_uncached_mask] using h2
      apply Nat.eq_of_testBit_eq
      intro i
      simp only [N64System.CachedAddr, Nat.testBit_land, testBit_cached_mask]
      rcases Nat.lt_or_ge i 32 with hi | hi
      · by_cases h29 : 29 = i
        · subst h29; simp [hb]
        · simp [h29, hi]
      · have hfalse : a.testBit i = false :=
          Nat.testBit_lt_two_pow (lt_of_lt_of_le ha
            (Nat.pow_le_pow_right (by norm_num) hi))
        simp [hfalse]

/-- C10 witness: the address algebra instantiated at the concrete 32-bit
address 0x80000000 (whose 0x20000000 bit is clear). -/
theorem uncached_cached_address_algebra_witness :
    (0x80000000 : Nat) < 2 ^ 32 ∧
    (N64System.get_uncached_address 0x80000000 = (0x80000000 ||| 0x20000000) ∧
    N64System.get_cached_address 0x80000000 = (0x80000000 &&& 0xDFFFFFFF) ∧
    N64System.get_uncached_address (N64System.get_uncached_address 0x80000000) =
      N64System.get_uncached_address 0x80000000 ∧
    N64System.get_cached_address (N64System.get_cached_address 0x80000000) =
      N64System.get_cached_address 0x80000000 ∧
    (N64System.get_cached_address (N64System.get_uncached_address 0x80000000) =
      0x80000000 ↔ (0x80000000 : Nat) &&& 0x20000000 = 0)) :=
  ⟨by decide, uncached_cached_address_algebra 0x80000000 (by decide)⟩
